import Mathlib

/-!
Verification of the vueganttic timeline projection and drag engine.

The TypeScript source (src/composables/useCalculations.ts, src/composables/useDrag.ts,
src/components/Gantt.vue) is shallowly embedded below.  Conventions of the embedding:

* JavaScript `Date` values are local wall-clock instants with no DST, modelled as
  an integer count of milliseconds (`ℤ`) since Jan 1 of year 0, local midnight.
  `new Date(y, mo, d, h, mi, s)` becomes `mkDateTime y mo d h mi s 0`.
  `date.setHours(0,0,0,0)` floors to midnight (`startOfDay`);
  `date.setHours(23,59,59,999)` is `endOfDay`.
* JavaScript numbers (pixel quantities) are modelled as exact rationals `ℚ`;
  `Math.round` is `jsRound : ℚ → ℤ` (both round half toward +∞),
  `Math.floor(a/b)` for an exact integer quotient with positive divisor is
  integer division `/` on `ℤ` (Euclidean = floor for positive divisors),
  `Math.ceil` on `ℚ` is `ratCeil`.
* Vue `computed`/`ref` state is passed explicitly as function arguments;
  the memoization cache `dayPositionCache` is transparent (it only caches the
  pure function `getExactPositionForDay`) and is therefore not modelled.
  DOM, CSS and tooltip string formatting are not modelled; the numeric style
  geometry written by the drag handlers is kept (`styleLeft`, `styleWidth`).
* Event emission (`emit('select', …)` etc.) is modelled as the list of `Emit`
  values produced by a handler.
-/

namespace Gantt

/-- Milliseconds per day (`24 * 60 * 60 * 1000` in the source). -/
def msPerDay : ℤ := 86400000

/-- `Math.floor` on an exact rational: numerator over denominator with
Euclidean (floor, since the denominator is positive) integer division.
Executable counterpart of `Int.floor` on `ℚ`. -/
def ratFloor (q : ℚ) : ℤ := q.num / (q.den : ℤ)

/-- `Math.ceil`: `ceil q = -floor (-q)`. -/
def ratCeil (q : ℚ) : ℤ := -ratFloor (-q)

/-- `Math.round`: rounds half toward positive infinity, `floor (q + 1/2)`. -/
def jsRound (q : ℚ) : ℤ := ratFloor (q + 1 / 2)

/-- Gregorian leap-year rule, as used by the JavaScript `Date` for local years. -/
def isLeap (y : ℤ) : Bool := (y % 4 == 0 && y % 100 != 0) || y % 400 == 0

/-- Day count of month `m` (0-based, January = 0) in year `y`; this is what
`new Date(year, m + 1, 0).getDate()` evaluates to in the source. -/
def daysInMonth (y : ℤ) : ℕ → ℕ
  | 0 => 31
  | 1 => if isLeap y then 29 else 28
  | 2 => 31
  | 3 => 30
  | 4 => 31
  | 5 => 30
  | 6 => 31
  | 7 => 31
  | 8 => 30
  | 9 => 31
  | 10 => 30
  | _ => 31

/-- Days in year `y` strictly before month `m` (the `for i < month` accumulation
pattern of `getExactPositionForDay`). -/
def cumDays (y : ℤ) (m : ℕ) : ℕ := ((List.range m).map (daysInMonth y)).sum

/-- The true Gregorian day count of a year: 365, or 366 in a leap year.  This is
the reference value the specification describes; the source's `daysInYear` is
compared against it. -/
def gregorianDaysInYear (y : ℤ) : ℤ := if isLeap y then 366 else 365

/-- Millisecond span from `new Date(y, 0, 1)` to `new Date(y, 11, 31, 23, 59, 59)`:
Dec 31 is day index `cumDays y 11 + 30` of the year, and 23:59:59 is 86399000 ms
into the day. -/
def spanMs (y : ℤ) : ℤ := ((cumDays y 11 + 30 : ℕ) : ℤ) * msPerDay + 86399000

/-- `daysInYear` from src/composables/useCalculations.ts lines 15-23:
`Math.ceil((endOfYear - startOfYear) / 86400000) + 1`. -/
def daysInYear (y : ℤ) : ℤ := ratCeil ((spanMs y : ℚ) / (msPerDay : ℚ)) + 1

/-- Days from the epoch (Jan 1 of year 0) to Jan 1 of year `y`,
counting leap years among `0, …, y-1`. -/
def daysBeforeYear (y : ℕ) : ℕ := 365 * y + (y + 3) / 4 - (y + 99) / 100 + (y + 399) / 400

/-- `getYearStart(year)` from useCalculations.ts: Jan 1, local midnight, as ms. -/
def yearStartMs (y : ℕ) : ℤ := (daysBeforeYear y : ℤ) * msPerDay

/-- `new Date(year, 11, 31, 23, 59, 59)` (the `yearEnd` of
`computeDateBasedPosition`), as ms. -/
def yearEndMs (y : ℕ) : ℤ := yearStartMs y + spanMs (y : ℤ)

/-- `date.setHours(0, 0, 0, 0)`: floor to local midnight. -/
def startOfDay (t : ℤ) : ℤ := t - t % msPerDay

/-- `date.setHours(23, 59, 59, 999)`: last millisecond of the same local day. -/
def endOfDay (t : ℤ) : ℤ := startOfDay t + 86399999

/-- `createDateAtDay(yearStart, dayOffset, isEndDate)` from useCalculations.ts
lines 82-97: `setDate(yearStart.getDate() + dayOffset)` adds whole days
(rolling across month and year boundaries, so a negative offset lands in the
previous year), then `setHours` picks start or end of that day. -/
def createDateAtDay (yearStart : ℤ) (dayOffset : ℤ) (isEndDate : Bool) : ℤ :=
  let d := yearStart + dayOffset * msPerDay
  if isEndDate then endOfDay d else startOfDay d

/-- `new Date(y, mo, d, h, mi, s, ms)` with in-range fields, as epoch ms. -/
def mkDateTime (y : ℕ) (mo d h mi s ms : ℕ) : ℤ :=
  ((daysBeforeYear y + cumDays (y : ℤ) mo + (d - 1) : ℕ) : ℤ) * msPerDay
    + ((((h * 60 + mi) * 60 + s) * 1000 + ms : ℕ) : ℤ)

/-- `type ViewMode = 'months' | 'weeks' | 'days'` from types.ts. -/
inductive ViewMode
  | months
  | weeks
  | days
deriving DecidableEq, Repr

/-- `dayWidth` from useCalculations.ts lines 26-35; `W` is `containerWidth`.
The `default` switch case is the `days` mode. -/
def dayWidth (mode : ViewMode) (W : ℚ) : ℚ :=
  match mode with
  | ViewMode.months => W / (12 * 30)
  | ViewMode.weeks => W / (10 * 7)
  | ViewMode.days => W / 30

/-- `pixelsToDays` from useCalculations.ts lines 292-294:
`Math.round(pixels / dayWidth)`. -/
def pixelsToDays (mode : ViewMode) (W : ℚ) (pixels : ℚ) : ℤ :=
  jsRound (pixels / dayWidth mode W)

/-- `daysToPixels` from useCalculations.ts lines 297-299. -/
def daysToPixels (mode : ViewMode) (W : ℚ) (days : ℤ) : ℚ :=
  (days : ℚ) * dayWidth mode W

/-- `timeUnitWidth` from src/components/Gantt.vue lines 127-145, with its
zero-container-width (or zero-unit-count) fallback to fixed defaults. -/
def timeUnitWidth (W : ℚ) (totalUnits : ℤ) (mode : ViewMode) : ℚ :=
  if W = 0 ∨ totalUnits = 0 then
    match mode with
    | ViewMode.months => 112
    | ViewMode.weeks => 50
    | ViewMode.days => 24
  else
    match mode with
    | ViewMode.months => W / 12
    | ViewMode.weeks => W / 10
    | ViewMode.days => W / 30

/-- Month index and 0-based day-of-month of day `d` of year `y`: what
`date.getMonth()` and `date.getDate() - 1` return in `getExactPositionForDay`
for `0 ≤ d <` the year's true day count (the fuel of 11 walks the at most
11 month boundaries below December). -/
def monthDayAux (y : ℤ) : ℕ → ℕ → ℕ → ℕ × ℕ
  | 0, m, d => (m, d)
  | fuel + 1, m, d =>
    if d < daysInMonth y m then (m, d) else monthDayAux y fuel (m + 1) (d - daysInMonth y m)

/-- `getExactPositionForDay(dayOfYear)` from useCalculations.ts lines 108-143.
Non-month modes return `dayOfYear * dayWidth`.  Month mode sums the pixel
widths of the full months before the day's month (each `(lastDay/daysInYear) *
containerWidth`) and adds the fractional share of the day's own month.  The
`dayPositionCache` memoization is transparent and not modelled.  The month walk
`monthDayAux` matches the source's `Date` arithmetic for day offsets inside the
year (the only offsets the month branch is applied to). -/
def getExactPositionForDay (mode : ViewMode) (W : ℚ) (y : ℤ) (dayOfYear : ℤ) : ℚ :=
  if mode ≠ ViewMode.months then (dayOfYear : ℚ) * dayWidth mode W
  else
    let md := monthDayAux y 11 0 dayOfYear.toNat
    let Y : ℚ := (daysInYear y : ℚ)
    let before := ((List.range md.1).map (fun i => ((daysInMonth y i : ℚ) / Y) * W)).sum
    let lastDayInMonth : ℚ := (daysInMonth y md.1 : ℚ)
    before + ((md.2 : ℚ) / lastDayInMonth) * ((lastDayInMonth / Y) * W)

/-- `Item` from types.ts; dates are epoch milliseconds. -/
structure Item where
  id : Option String
  title : String
  startDate : ℤ
  endDate : ℤ
deriving DecidableEq, Repr

/-- `ComputedItem` from types.ts.  In the source `left` is the string
`` `${left}px` `` and `style.transform` repeats it; both are recovered from the
numeric value (`parseFloat(item.left.replace('px',''))` in `startResize`), so
the model keeps the number itself. -/
structure ComputedItem extends Item where
  start : ℤ
  width : ℚ
  durationDays : ℤ
  left : ℚ
deriving DecidableEq, Repr

/-- `daysFromYearStartToItemStart` of `computeDateBasedPosition`
(useCalculations.ts lines 150-166): clamp `startDate` below by Jan 1, floor the
clamped date to midnight, and take `max(0, floor(ms span / msPerDay))`. -/
def itemStartOffset (y : ℕ) (item : Item) : ℤ :=
  let yearStart := yearStartMs y
  let effectiveStartDate :=
    startOfDay (if item.startDate < yearStart then yearStart else item.startDate)
  max 0 ((effectiveStartDate - yearStart) / msPerDay)

/-- `daysFromYearStartToItemEnd` of `computeDateBasedPosition`
(useCalculations.ts lines 155-170): clamp `endDate` above by Dec 31 23:59:59,
move to 23:59:59.999 of that day, floor-divide the span by `msPerDay`. -/
def itemEndOffset (y : ℕ) (item : Item) : ℤ :=
  let yearStart := yearStartMs y
  let effectiveEndDate := endOfDay (if yearEndMs y < item.endDate then yearEndMs y else item.endDate)
  (effectiveEndDate - yearStart) / msPerDay

/-- `computeDateBasedPosition(item)` from useCalculations.ts lines 146-200. -/
def computeDateBasedPosition (mode : ViewMode) (W : ℚ) (y : ℕ) (item : Item) : ComputedItem :=
  let s := itemStartOffset y item
  let e := itemEndOffset y item
  let durationInDays := max 1 (e - s + 1)
  let lw : ℚ × ℚ :=
    if mode = ViewMode.months then
      let l := getExactPositionForDay mode W (y : ℤ) s
      (l, max 4 (getExactPositionForDay mode W (y : ℤ) e - l))
    else ((s : ℚ) * dayWidth mode W, (durationInDays : ℚ) * dayWidth mode W)
  { toItem := item, start := s, width := lw.2, durationDays := durationInDays, left := lw.1 }

/-- The 12 rounded label widths of `generateMonthLabels` (useCalculations.ts
lines 219-236): `Math.round((lastDay / totalDaysInYear) * containerWidth)`.
Only the numeric `width` field matters here; label text is display-only. -/
def monthLabelWidths (y : ℤ) (W : ℚ) : List ℚ :=
  (List.range 12).map (fun i => ((jsRound (((daysInMonth y i : ℚ) / (daysInYear y : ℚ)) * W) : ℤ) : ℚ))

/-- `generateMonthLabels` (useCalculations.ts lines 219-243) including the final
adjustment `labels[11].width += containerWidth - totalWidth` when the rounded
widths do not already sum to the container width. -/
def generateMonthLabels (y : ℤ) (W : ℚ) : List ℚ :=
  let labels := monthLabelWidths y W
  let totalWidth := labels.sum
  if totalWidth ≠ W then labels.set 11 (labels.getD 11 0 + (W - totalWidth)) else labels

/-- The three non-null values of `type ResizeType = 'start' | 'end' | 'move' | null`;
the `null` case is `Option.none` at use sites. -/
inductive DragKind
  | resizeStart
  | resizeEnd
  | move
deriving DecidableEq, Repr

/-- The mutable refs of `useDrag` (useDrag.ts lines 15-36) that the drag logic
reads or writes.  `styleLeft`/`styleWidth` are the numeric content of
`activeItemStyle`; DOM references, tooltip text and the `currentStartDay` /
`currentDurationDays` display trackers are not modelled (they are never read by
the commit logic). -/
structure DragState where
  isDragging : Bool
  dragType : Option DragKind
  activeItemIndex : Option ℕ
  initialMouseX : ℚ
  initialItemWidth : ℚ
  initialItemStartPx : ℚ
  initialStartDay : ℤ
  initialEndDay : ℤ
  isFirstDragMovement : Bool
  lastProcessedX : ℚ
  styleLeft : ℚ
  styleWidth : ℚ
deriving DecidableEq, Repr

/-- The initial values of the `useDrag` refs. -/
def initialDragState : DragState where
  isDragging := false
  dragType := none
  activeItemIndex := none
  initialMouseX := 0
  initialItemWidth := 0
  initialItemStartPx := 0
  initialStartDay := 0
  initialEndDay := 0
  isFirstDragMovement := true
  lastProcessedX := 0
  styleLeft := 0
  styleWidth := 0

/-- `startResize(event, type, index, item)` from useDrag.ts lines 47-127:
captures the gesture, the initial pointer X and the item's initial geometry
and day offsets (`initialEndDay = item.start + item.durationDays - 1`), and
copies the item's style.  Tooltip initialization and DOM class toggling are
display-only and not modelled. -/
def startResize (clientX : ℚ) (ty : Option DragKind) (index : ℕ) (item : ComputedItem)
    (st : DragState) : DragState :=
  { st with
    isDragging := true
    dragType := ty
    activeItemIndex := some index
    initialMouseX := clientX
    isFirstDragMovement := true
    lastProcessedX := clientX
    initialItemWidth := item.width
    initialItemStartPx := item.left
    initialStartDay := item.start
    initialEndDay := item.start + item.durationDays - 1
    styleLeft := item.left
    styleWidth := item.width }

/-- `handleEndResizePixels(deltaX)` from useDrag.ts lines 129-159
(style update only; the tooltip preview is display-only). -/
def handleEndResizePixels (st : DragState) (deltaX : ℚ) : DragState :=
  if st.activeItemIndex = none then st
  else
    let newWidth := max 4 (st.initialItemWidth + deltaX)
    { st with styleLeft := st.initialItemStartPx, styleWidth := newWidth }

/-- `handleStartResizePixels(deltaX)` from useDrag.ts lines 161-192:
`limitedDeltaX = min(deltaX, initialItemWidth - 4)` keeps a 4px minimum width. -/
def handleStartResizePixels (st : DragState) (deltaX : ℚ) : DragState :=
  if st.activeItemIndex = none then st
  else
    let limitedDeltaX := min deltaX (st.initialItemWidth - 4)
    { st with
      styleLeft := st.initialItemStartPx + limitedDeltaX
      styleWidth := st.initialItemWidth - limitedDeltaX }

/-- `handleMovePixels(deltaX)` from useDrag.ts lines 194-224: the visual left
edge is clamped at 0 (`Math.max(0, initialItemStartPx + deltaX)`). -/
def handleMovePixels (st : DragState) (deltaX : ℚ) : DragState :=
  if st.activeItemIndex = none then st
  else
    { st with
      styleLeft := max 0 (st.initialItemStartPx + deltaX)
      styleWidth := st.initialItemWidth }

/-- `onMouseMove(event)` from useDrag.ts lines 239-274: the 1px throttle
against `lastProcessedX`, the 2px first-movement threshold, and the per-gesture
pixel handlers.  `cancelAnimationFrame` and the tooltip are not modelled. -/
def onMouseMove (clientX : ℚ) (st : DragState) : DragState :=
  if !st.isDragging || st.activeItemIndex = none then st
  else if |clientX - st.lastProcessedX| < 1 then st
  else
    let deltaX := clientX - st.initialMouseX
    let st1 := { st with lastProcessedX := clientX }
    if |deltaX| < 2 ∧ st1.isFirstDragMovement then st1
    else
      let st2 := { st1 with isFirstDragMovement := false }
      match st2.dragType with
      | some DragKind.resizeStart => handleStartResizePixels st2 deltaX
      | some DragKind.resizeEnd => handleEndResizePixels st2 deltaX
      | some DragKind.move => handleMovePixels st2 deltaX
      | none => st2

/-- The identity predicate of `onMouseUp`'s `findIndex` (useDrag.ts lines
289-295): equal titles, and equal ids when both sides carry an id. -/
def matchesItem (filteredItem : ComputedItem) (item : Item) : Bool :=
  filteredItem.title == item.title &&
    (match filteredItem.id, item.id with
      | some a, some b => a == b
      | _, _ => true)

/-- The notifications a handler can raise: `emit('select' | 'update:item' |
'move' | 'resize', item)`. -/
inductive Emit
  | select (item : Item)
  | updateItem (item : Item)
  | move (item : Item)
  | resize (item : Item)
deriving DecidableEq, Repr

/-- `resetDragState()` from useDrag.ts lines 382-401 (the modelled fields). -/
def resetDragState (st : DragState) : DragState :=
  { st with
    isDragging := false
    dragType := none
    activeItemIndex := none
    isFirstDragMovement := true }

/-- `onMouseUp(event, filteredItems, originalItems, emit)` from useDrag.ts
lines 276-380, returning the emitted notifications and the new state.
`hadActualDrag` requires a real first movement and a pointer displacement of
more than 3px; otherwise the gesture is a click and only `select` is emitted.
A failed identity lookup aborts silently.  Otherwise the final pixel delta is
converted to a day delta and applied to the original item's dates: the
resize-start branch limits `deltaX` by `initialItemWidth - 4`, the resize-end
branch recomputes the right edge through `max(4, newWidth)`, and the `else`
branch (taken for `'move'` and for a null drag type) shifts both dates;
`emit('move', …)` is raised only when the drag type is exactly `'move'`. -/
def onMouseUp (mode : ViewMode) (W : ℚ) (y : ℕ) (clientX : ℚ)
    (filteredItems : List ComputedItem) (originalItems : List Item)
    (st : DragState) : List Emit × DragState :=
  if !st.isDragging then ([], st)
  else
    match st.activeItemIndex with
    | none => ([], st)
    | some idx =>
      match filteredItems[idx]? with
      | none => ([], resetDragState st)
      | some filteredItem =>
        match originalItems.find? (fun item => matchesItem filteredItem item) with
        | none => ([], resetDragState st)
        | some originalItem =>
          let hadActualDrag :=
            !st.isFirstDragMovement && decide (3 < |clientX - st.initialMouseX|)
          if !hadActualDrag then ([Emit.select originalItem], resetDragState st)
          else
            let yearStart := yearStartMs y
            let deltaX := clientX - st.initialMouseX
            match st.dragType with
            | some DragKind.resizeStart =>
              let limitedDeltaX := min deltaX (st.initialItemWidth - 4)
              let dayDelta := pixelsToDays mode W limitedDeltaX
              let updatedItem := { originalItem with
                startDate := createDateAtDay yearStart (st.initialStartDay + dayDelta) false }
              ([Emit.updateItem updatedItem, Emit.resize updatedItem], resetDragState st)
            | some DragKind.resizeEnd =>
              let newWidth := st.initialItemWidth + deltaX
              let oldEndPx := st.initialItemStartPx + st.initialItemWidth
              let newEndPx := st.initialItemStartPx + max 4 newWidth
              let dayDelta := pixelsToDays mode W (newEndPx - oldEndPx)
              let updatedItem := { originalItem with
                endDate := createDateAtDay yearStart (st.initialEndDay + dayDelta) true }
              ([Emit.updateItem updatedItem, Emit.resize updatedItem], resetDragState st)
            | _ =>
              let dayDelta := pixelsToDays mode W deltaX
              let updatedItem := { originalItem with
                startDate := createDateAtDay yearStart (st.initialStartDay + dayDelta) false
                endDate := createDateAtDay yearStart (st.initialEndDay + dayDelta) true }
              (Emit.updateItem updatedItem ::
                (match st.dragType with
                  | some DragKind.move => [Emit.move updatedItem]
                  | _ => []),
                resetDragState st)

/-! Concrete instances used by scenario theorems and witnesses. -/

/-- An item spanning day offsets 10..20 of 2024 (Jan 11 00:00 to Jan 21,
projecting with `start = 10`, `durationDays = 11`). -/
def sampleItem : Item where
  id := none
  title := "a"
  startDate := mkDateTime 2024 0 11 0 0 0 0
  endDate := mkDateTime 2024 0 21 0 0 0 0

/-- `sampleItem` projected in day view with a 300px container
(`dayWidth = 10`). -/
def sampleComputed : ComputedItem := computeDateBasedPosition ViewMode.days 300 2024 sampleItem

/-- An item whose `endDate` (Jan 5, 2024) falls after Dec 31 of the visible
year 2023. -/
def itemPastYearEnd : Item where
  id := none
  title := "x"
  startDate := mkDateTime 2023 0 1 0 0 0 0
  endDate := mkDateTime 2024 0 5 0 0 0 0

/-- An item overshooting the visible year 2023 on both sides. -/
def itemSpanning : Item where
  id := none
  title := "s"
  startDate := mkDateTime 2022 0 1 0 0 0 0
  endDate := mkDateTime 2024 0 5 0 0 0 0

/-- A drag session mid resize-start gesture on `sampleComputed`: pointer
pressed at x = 0, one real movement to x = -10 already processed (so
`isFirstDragMovement` is false). -/
def stateResizeStart : DragState :=
  onMouseMove (-10) (startResize 0 (some DragKind.resizeStart) 0 sampleComputed initialDragState)

/-- A drag session mid move gesture on `sampleComputed`, dragged far left
(pointer at x = -200, i.e. 20 days left of the original position). -/
def stateMoveLeft : DragState :=
  onMouseMove (-200) (startResize 0 (some DragKind.move) 0 sampleComputed initialDragState)

/-! Helper lemmas shared by several claims. -/

lemma ratFloor_eq_floor (q : ℚ) : ratFloor q = ⌊q⌋ := Rat.floor_def.symm

lemma jsRound_eq_round (q : ℚ) : jsRound q = round q := by
  rw [jsRound, ratFloor_eq_floor, round_eq]

lemma ratCeil_eq_ceil (q : ℚ) : ratCeil q = ⌈q⌉ := by
  rw [ratCeil, ratFloor_eq_floor, Int.floor_neg, neg_neg]

lemma cumDays_eleven (y : ℤ) : cumDays y 11 = if isLeap y then 335 else 334 := by
  have hr : List.range 11 = [0, 1, 2, 3, 4, 5, 6, 7, 8, 9, 10] := rfl
  cases h : isLeap y <;> simp [cumDays, hr, daysInMonth, h]

lemma sum_set_getD (l : List ℚ) (n : ℕ) (a : ℚ) (h : n < l.length) :
    (l.set n a).sum = l.sum - l.getD n 0 + a := by
  induction l generalizing n with
  | nil => simp at h
  | cons x xs ih =>
    cases n with
    | zero => simp [List.set]; ring
    | succ m =>
      simp only [List.set, List.sum_cons, List.getD_cons_succ]
      rw [ih m (by simpa using h)]
      ring

lemma daysInYear_eq (y : ℤ) : daysInYear y = gregorianDaysInYear y + 1 := by
  have h11 := cumDays_eleven y
  cases h : isLeap y <;> simp only [h] at h11 <;> norm_num at h11 <;>
    rw [daysInYear, spanMs, h11, ratCeil_eq_ceil, gregorianDaysInYear] <;>
    simp only [h] <;> norm_num [msPerDay]
  · have h365 : (⌈(31535999 : ℚ) / 86400⌉ : ℤ) = 365 := by norm_num [Int.ceil_eq_iff]
    rw [h365]
    norm_num
  · have h366 : (⌈(31622399 : ℚ) / 86400⌉ : ℤ) = 366 := by norm_num [Int.ceil_eq_iff]
    rw [h366]
    norm_num

lemma cumDays_plus30_eq (y : ℤ) :
    ((cumDays y 11 + 30 : ℕ) : ℤ) = gregorianDaysInYear y - 1 := by
  have h11 := cumDays_eleven y
  cases h : isLeap y <;> simp only [h] at h11 <;> norm_num at h11 <;>
    simp [gregorianDaysInYear, h, h11]

/-- C3: the source's `daysInYear` over-counts every year by one: the span from
Jan 1 00:00 to Dec 31 23:59:59 is already 364 (365 in leap years) days plus a
fraction, so `Math.ceil` alone yields the inclusive day count, and the extra
`+ 1` pushes the result to 366 for a common year and 367 for a leap year,
contradicting the claimed 365/366. -/
theorem daysInYear_overcounts_by_one (y : ℤ) :
    daysInYear y = gregorianDaysInYear y + 1 :=
  daysInYear_eq y

/-- C7: the generated month-label widths always sum exactly to the container
width: the rounded widths are corrected by adding the residual
`containerWidth - totalWidth` to the December label. -/
theorem monthLabels_width_conservation (y : ℤ) (W : ℚ) :
    (generateMonthLabels y W).sum = W := by
  by_cases hq : (monthLabelWidths y W).sum = W
  · simp [generateMonthLabels, hq]
  · have hlen : 11 < (monthLabelWidths y W).length := by simp [monthLabelWidths]
    simp only [generateMonthLabels, hq, ne_eq, not_false_iff, if_true]
    rw [sum_set_getD _ _ _ hlen]
    ring

/-- C8: for every input item, year, view mode and container width, the
projected `durationDays` is at least 1, because `computeDateBasedPosition`
takes `max(1, end - start + 1)`. -/
theorem durationDays_ge_one (mode : ViewMode) (W : ℚ) (y : ℕ) (item : Item) :
    1 ≤ (computeDateBasedPosition mode W y item).durationDays := by
  have h : (computeDateBasedPosition mode W y item).durationDays
      = max 1 (itemEndOffset y item - itemStartOffset y item + 1) := rfl
  rw [h]
  exact le_max_left _ _

/-- C9 counterexample: at container width 0, `dayWidth` in useCalculations.ts
is `0 / 360 = 0` — a zero per-unit width, with no fallback to a fixed
default.  This falsifies the claim that the unit widths used by `pixelsToDays`
fall back to nonzero defaults at zero container width. -/
theorem dayWidth_zero_when_container_zero : dayWidth ViewMode.months 0 = 0 := by
  simp [dayWidth]

/-- C9 amended: the fallback exists only in Gantt.vue's `timeUnitWidth`
(112 / 50 / 24 px for months / weeks / days), while useCalculations.ts's
`dayWidth` — the divisor of `pixelsToDays` — has no fallback and is exactly 0
when the container width is 0. -/
theorem timeUnitWidth_fallback (mode : ViewMode) (u : ℤ) :
    timeUnitWidth 0 u mode =
      (match mode with
        | ViewMode.months => 112
        | ViewMode.weeks => 50
        | ViewMode.days => 24) ∧
    dayWidth mode 0 = 0 := by
  cases mode <;> simp [timeUnitWidth, dayWidth]

unseal Rat.add Rat.mul Rat.sub Rat.inv in
/-- C1 counterexample: in month view the claim fails.  With year 2023 and
container width 366, day offset 364 (in `[0, daysInYear)`) forward-maps to
pixel 364, but `pixelsToDays` divides by the nominal day width
`containerWidth / 360` and rounds to 358 — six days off, far beyond the
claimed one-day tolerance. -/
theorem months_roundtrip_off_by_six :
    ((0 : ℤ) ≤ 364 ∧ (364 : ℤ) < daysInYear 2023) ∧
    1 < |pixelsToDays ViewMode.months 366 (getExactPositionForDay ViewMode.months 366 2023 364)
          - 364| := by
  decide

/-- C1 amended: the round-trip `pixelsToDays ∘ getExactPositionForDay` is the
identity (hence within the one-day tolerance) for the weeks and days view
modes with any positive container width; in months view it can be off by
several days because the inverse divides by the nominal uniform day width
instead of inverting the non-uniform month mapping. -/
theorem roundtrip_exact_weeks_days (mode : ViewMode) (W : ℚ) (y d : ℤ)
    (hW : 0 < W) (hmode : mode = ViewMode.weeks ∨ mode = ViewMode.days) :
    pixelsToDays mode W (getExactPositionForDay mode W y d) = d := by
  have hdw : dayWidth mode W ≠ 0 := by
    rcases hmode with h | h <;> subst h <;> show W / _ ≠ 0 <;>
      exact div_ne_zero hW.ne' (by norm_num)
  have hmm : mode ≠ ViewMode.months := by
    rcases hmode with h | h <;> subst h <;> simp
  rw [getExactPositionForDay, if_pos hmm, pixelsToDays, mul_div_cancel_right₀ _ hdw,
    jsRound_eq_round, round_intCast]

/-- Witness for C1's amended theorem at weeks view, container width 70,
day offset 5. -/
theorem roundtrip_exact_weeks_days_witness :
    (0 : ℚ) < 70 ∧
    pixelsToDays ViewMode.weeks 70 (getExactPositionForDay ViewMode.weeks 70 2023 5) = 5 :=
  ⟨by norm_num, roundtrip_exact_weeks_days ViewMode.weeks 70 2023 5 (by norm_num) (Or.inl rfl)⟩

/-- C2: a pointer-down (`startResize`) followed immediately by a pointer-up at
the same pointer position emits exactly one `select` notification carrying the
matched original item (dates untouched), and no `update:item`, `move` or
`resize`: `isFirstDragMovement` is still true, so `hadActualDrag` is false. -/
theorem click_without_drag_emits_select_only (mode : ViewMode) (W : ℚ) (y : ℕ) (x : ℚ)
    (ty : Option DragKind) (idx : ℕ) (item : ComputedItem) (st0 : DragState)
    (filteredItems : List ComputedItem) (originalItems : List Item) (orig : Item)
    (hf : filteredItems[idx]? = some item)
    (hfind : originalItems.find? (fun it => matchesItem item it) = some orig) :
    (onMouseUp mode W y x filteredItems originalItems (startResize x ty idx item st0)).1
      = [Emit.select orig] := by
  simp [onMouseUp, startResize, hf, hfind]

unseal Rat.add Rat.mul Rat.sub Rat.inv in
/-- Witness for C2 at a concrete item and state. -/
theorem click_without_drag_witness :
    (([sampleComputed] : List ComputedItem)[0]? = some sampleComputed) ∧
    ([sampleItem].find? (fun it => matchesItem sampleComputed it) = some sampleItem) ∧
    (onMouseUp ViewMode.days 300 2024 0 [sampleComputed] [sampleItem]
      (startResize 0 (some DragKind.move) 0 sampleComputed initialDragState)).1
      = [Emit.select sampleItem] :=
  ⟨rfl, by decide,
    click_without_drag_emits_select_only ViewMode.days 300 2024 0 (some DragKind.move) 0
      sampleComputed initialDragState [sampleComputed] [sampleItem] sampleItem rfl (by decide)⟩

unseal Rat.add Rat.mul Rat.sub Rat.inv in
/-- C4 counterexample: for visible year 2023 and an item ending Jan 5, 2024
(after Dec 31), the computed end day offset is 364 while `daysInYear - 1` is
365 (the source's `daysInYear` over-counts the year by one), so the claim's
`end == daysInYear - 1` is false. -/
theorem end_clamp_not_daysInYear_sub_one :
    yearEndMs 2023 < itemPastYearEnd.endDate ∧
    itemEndOffset 2023 itemPastYearEnd ≠ daysInYear 2023 - 1 := by
  decide

/-- C4 amended: an item starting before Jan 1 projects with start offset 0,
and an item ending after Dec 31 projects with end offset equal to the actual
day count of the year minus 1 — which is `daysInYear - 2`, not
`daysInYear - 1`, because the source's `daysInYear` over-counts by one. -/
theorem clamp_start_zero_end_actual_days (y : ℕ) (item : Item)
    (h1 : item.startDate < yearStartMs y) (h2 : yearEndMs y < item.endDate) :
    itemStartOffset y item = 0 ∧
    itemEndOffset y item = gregorianDaysInYear (y : ℤ) - 1 ∧
    gregorianDaysInYear (y : ℤ) - 1 = daysInYear (y : ℤ) - 2 := by
  have hmod : yearStartMs y % 86400000 = 0 := Int.mul_emod_left _ _
  refine ⟨?_, ?_, ?_⟩
  · simp only [itemStartOffset, startOfDay, msPerDay]
    rw [if_pos h1]
    omega
  · simp only [itemEndOffset, endOfDay, startOfDay, msPerDay]
    rw [if_pos h2]
    simp only [yearEndMs, spanMs, cumDays_plus30_eq, msPerDay]
    omega
  · have := daysInYear_eq (y : ℤ)
    omega

unseal Rat.add Rat.mul Rat.sub Rat.inv in
/-- Witness for C4's amended theorem: year 2023 and an item overshooting both
year boundaries. -/
theorem clamp_start_zero_end_actual_days_witness :
    (itemSpanning.startDate < yearStartMs 2023 ∧ yearEndMs 2023 < itemSpanning.endDate) ∧
    (itemStartOffset 2023 itemSpanning = 0 ∧
      itemEndOffset 2023 itemSpanning = gregorianDaysInYear 2023 - 1 ∧
      gregorianDaysInYear 2023 - 1 = daysInYear 2023 - 2) :=
  ⟨⟨by decide, by decide⟩,
    clamp_start_zero_end_actual_days 2023 itemSpanning (by decide) (by decide)⟩

unseal Rat.add Rat.mul Rat.sub Rat.inv in
/-- C6: the resize-end snap scenario.  The item spans day offsets 10..20 of
2024; in day view with a 300px container (`dayWidth = 10`) the end handle is
dragged by `+2 * unitWidth = 20` pixels (one `onMouseMove`, then `onMouseUp`).
The committed item's `endDate` is day offset 22 at 23:59:59.999 local
(= `createDateAtDay(yearStart 2024, 22, isEnd := true)` = Jan 23, 2024
23:59:59.999), its `startDate` is unchanged, and the gesture emits
`update:item` and `resize`. -/
theorem resize_end_snap_days_view :
    (onMouseUp ViewMode.days 300 2024 20 [sampleComputed] [sampleItem]
      (onMouseMove 20 (startResize 0 (some DragKind.resizeEnd) 0 sampleComputed
        initialDragState))).1
      = [Emit.updateItem { sampleItem with endDate := mkDateTime 2024 0 23 23 59 59 999 },
         Emit.resize { sampleItem with endDate := mkDateTime 2024 0 23 23 59 59 999 }] ∧
    mkDateTime 2024 0 23 23 59 59 999 = createDateAtDay (yearStartMs 2024) 22 true := by
  decide

/-- C5: frame effect of a committed resize.  For a completed resize-start
gesture the committed item keeps the original `endDate`, `id` and `title`
unchanged and only `startDate` is recomputed as
`createDateAtDay(yearStart, initialStartDay + dayDelta, isEnd := false)`;
symmetrically, a completed resize-end gesture keeps `startDate`, `id` and
`title` and recomputes only `endDate` with end-of-day semantics. -/
theorem resize_commit_preserves_other_axis (mode : ViewMode) (W : ℚ) (y : ℕ) (x : ℚ)
    (filteredItems : List ComputedItem) (originalItems : List Item)
    (st : DragState) (idx : ℕ) (fitem : ComputedItem) (orig : Item)
    (h1 : st.isDragging = true) (h2 : st.activeItemIndex = some idx)
    (h3 : filteredItems[idx]? = some fitem)
    (h4 : originalItems.find? (fun it => matchesItem fitem it) = some orig)
    (h5 : st.isFirstDragMovement = false)
    (h6 : 3 < |x - st.initialMouseX|) :
    (st.dragType = some DragKind.resizeStart →
      ∃ u : Item,
        (onMouseUp mode W y x filteredItems originalItems st).1
          = [Emit.updateItem u, Emit.resize u] ∧
        u.endDate = orig.endDate ∧ u.id = orig.id ∧ u.title = orig.title ∧
        u.startDate = createDateAtDay (yearStartMs y)
          (st.initialStartDay +
            pixelsToDays mode W (min (x - st.initialMouseX) (st.initialItemWidth - 4))) false) ∧
    (st.dragType = some DragKind.resizeEnd →
      ∃ u : Item,
        (onMouseUp mode W y x filteredItems originalItems st).1
          = [Emit.updateItem u, Emit.resize u] ∧
        u.startDate = orig.startDate ∧ u.id = orig.id ∧ u.title = orig.title ∧
        u.endDate = createDateAtDay (yearStartMs y)
          (st.initialEndDay +
            pixelsToDays mode W
              ((st.initialItemStartPx + max 4 (st.initialItemWidth + (x - st.initialMouseX)))
                - (st.initialItemStartPx + st.initialItemWidth))) true) := by
  constructor
  · intro hty
    refine ⟨{ orig with
        startDate := createDateAtDay (yearStartMs y)
          (st.initialStartDay +
            pixelsToDays mode W (min (x - st.initialMouseX) (st.initialItemWidth - 4))) false },
      ?_, rfl, rfl, rfl, rfl⟩
    simp [onMouseUp, h1, h2, h3, h4, h5, h6, hty]
  · intro hty
    refine ⟨{ orig with
        endDate := createDateAtDay (yearStartMs y)
          (st.initialEndDay +
            pixelsToDays mode W
              ((st.initialItemStartPx + max 4 (st.initialItemWidth + (x - st.initialMouseX)))
                - (st.initialItemStartPx + st.initialItemWidth))) true },
      ?_, rfl, rfl, rfl, rfl⟩
    simp [onMouseUp, h1, h2, h3, h4, h5, h6, hty]

unseal Rat.add Rat.mul Rat.sub Rat.inv in
/-- Witness for C5: the resize-start session `stateResizeStart` released at
x = -10 commits an item whose `endDate` is exactly the original one. -/
theorem resize_commit_preserves_other_axis_witness :
    ∃ u : Item,
      (onMouseUp ViewMode.days 300 2024 (-10) [sampleComputed] [sampleItem] stateResizeStart).1
        = [Emit.updateItem u, Emit.resize u] ∧
      u.endDate = sampleItem.endDate := by
  obtain ⟨u, hlist, hend, -, -, -⟩ :=
    (resize_commit_preserves_other_axis ViewMode.days 300 2024 (-10) [sampleComputed]
      [sampleItem] stateResizeStart 0 sampleComputed sampleItem (by decide) (by decide)
      (by decide) (by decide) (by decide) (by decide)).1 (by decide)
  exact ⟨u, hlist, hend⟩

/-- C10: the `max(0, …)` left clamp is applied by `handleMovePixels` to the
visual geometry only.  At commit, `onMouseUp` converts the raw pixel delta
(move) or the only-width-limited delta (resize-start) to a day delta, so when
the resulting day offset is negative the committed `startDate` lands strictly
before the visible year's January 1 (in the previous year). -/
theorem commit_ignores_visual_left_clamp (mode : ViewMode) (W : ℚ) (y : ℕ) (x : ℚ)
    (filteredItems : List ComputedItem) (originalItems : List Item)
    (st : DragState) (idx : ℕ) (fitem : ComputedItem) (orig : Item)
    (h1 : st.isDragging = true) (h2 : st.activeItemIndex = some idx)
    (h3 : filteredItems[idx]? = some fitem)
    (h4 : originalItems.find? (fun it => matchesItem fitem it) = some orig)
    (h5 : st.isFirstDragMovement = false)
    (h6 : 3 < |x - st.initialMouseX|) :
    (∀ deltaX : ℚ, (handleMovePixels st deltaX).styleLeft
        = max 0 (st.initialItemStartPx + deltaX)) ∧
    (st.dragType = some DragKind.move →
      st.initialStartDay + pixelsToDays mode W (x - st.initialMouseX) < 0 →
      ∃ u : Item, ∃ rest : List Emit,
        (onMouseUp mode W y x filteredItems originalItems st).1 = Emit.updateItem u :: rest ∧
        u.startDate < yearStartMs y) ∧
    (st.dragType = some DragKind.resizeStart →
      st.initialStartDay +
          pixelsToDays mode W (min (x - st.initialMouseX) (st.initialItemWidth - 4)) < 0 →
      ∃ u : Item, ∃ rest : List Emit,
        (onMouseUp mode W y x filteredItems originalItems st).1 = Emit.updateItem u :: rest ∧
        u.startDate < yearStartMs y) := by
  have hmod : yearStartMs y % 86400000 = 0 := Int.mul_emod_left _ _
  refine ⟨?_, ?_, ?_⟩
  · intro d
    simp [handleMovePixels, h2]
  · intro hty hneg
    refine ⟨{ orig with
        startDate := createDateAtDay (yearStartMs y)
          (st.initialStartDay + pixelsToDays mode W (x - st.initialMouseX)) false
        endDate := createDateAtDay (yearStartMs y)
          (st.initialEndDay + pixelsToDays mode W (x - st.initialMouseX)) true },
      [Emit.move { orig with
        startDate := createDateAtDay (yearStartMs y)
          (st.initialStartDay + pixelsToDays mode W (x - st.initialMouseX)) false
        endDate := createDateAtDay (yearStartMs y)
          (st.initialEndDay + pixelsToDays mode W (x - st.initialMouseX)) true }], ?_, ?_⟩
    · simp [onMouseUp, h1, h2, h3, h4, h5, h6, hty]
    · show createDateAtDay _ _ false < _
      simp [createDateAtDay, startOfDay, msPerDay]
      omega
  · intro hty hneg
    refine ⟨{ orig with
        startDate := createDateAtDay (yearStartMs y)
          (st.initialStartDay +
            pixelsToDays mode W (min (x - st.initialMouseX) (st.initialItemWidth - 4))) false },
      [Emit.resize { orig with
        startDate := createDateAtDay (yearStartMs y)
          (st.initialStartDay +
            pixelsToDays mode W (min (x - st.initialMouseX) (st.initialItemWidth - 4))) false }],
      ?_, ?_⟩
    · simp [onMouseUp, h1, h2, h3, h4, h5, h6, hty]
    · show createDateAtDay _ _ false < _
      simp [createDateAtDay, startOfDay, msPerDay]
      omega

unseal Rat.add Rat.mul Rat.sub Rat.inv in
/-- Witness for C10: `stateMoveLeft` (a move gesture dragged 200px = 20 days
left in day view) commits a `startDate` before Jan 1, 2024. -/
theorem commit_ignores_visual_left_clamp_witness :
    stateMoveLeft.initialStartDay +
        pixelsToDays ViewMode.days 300 ((-200 : ℚ) - stateMoveLeft.initialMouseX) < 0 ∧
    ∃ u : Item, ∃ rest : List Emit,
      (onMouseUp ViewMode.days 300 2024 (-200) [sampleComputed] [sampleItem] stateMoveLeft).1
        = Emit.updateItem u :: rest ∧
      u.startDate < yearStartMs 2024 := by
  refine ⟨by decide, ?_⟩
  exact (commit_ignores_visual_left_clamp ViewMode.days 300 2024 (-200) [sampleComputed]
    [sampleItem] stateMoveLeft 0 sampleComputed sampleItem (by decide) (by decide) (by decide)
    (by decide) (by decide) (by decide)).2.1 (by decide) (by decide)

end Gantt
